import Mathlib

/-!
Verification development for the CodeGen repository (src/backend).

The Python backend is shallowly embedded: pure helper functions from
`groq_client.py` and `file_processing.py` become Lean functions over
`String` / `List Char`; the effectful orchestration in `main.py`
(`generation_stream`) becomes a function of an explicit oracle
environment recording the outcome of every external call (database
commits, text extraction, LLM invocations, file deletion), returning
the emitted event list together with the persisted record state.
-/

namespace CodeGen

/-! ## Basic string machinery

Python's `in` operator on strings (substring test), `str.lower`,
`str.strip` and `re.sub` over the fixed pattern used by the code are
modelled over `List Char`. -/

/-- Index of the first occurrence of `pat` as a contiguous sublist of `s`
(the position where a regex/`str.find`-style left-to-right scan first
matches), `none` when absent. -/
def findSubstr (pat : List Char) : List Char → Option Nat
  | [] => if pat = [] then some 0 else none
  | c :: rest =>
    if pat.isPrefixOf (c :: rest) then some 0
    else (findSubstr pat rest).map (· + 1)

/-- Python's `pat in s` substring test. -/
def containsSub (pat s : List Char) : Bool :=
  (findSubstr pat s).isSome

/-- `description.lower()` as a character list (ASCII lowering, which is
what every keyword comparison in the source exercises). -/
def lowerL (s : String) : List Char :=
  s.toList.map Char.toLower

/-- The whitespace class of Python's `str.strip()` restricted to the
ASCII characters that can occur in the model's strings. -/
def isPySpace (c : Char) : Bool :=
  c == ' ' || c == '\t' || c == '\n' || c == '\r' || c == '\x0b' || c == '\x0c'

/-- Python `text.strip()`: drop leading and trailing whitespace. -/
def pyStrip (l : List Char) : List Char :=
  ((l.dropWhile isPySpace).reverse.dropWhile isPySpace).reverse

/-! ## `remove_think_tags` (groq_client.py lines 392-395)

`re.sub(r"<think>.*?</think>", "", text, flags=re.DOTALL)` followed by
`.strip()`.  The regex engine removes, left to right, each
non-overlapping match consisting of the leftmost `<think>`, the
shortest following span, and the earliest subsequent `</think>`;
scanning resumes after the removed span. -/

def thinkOpenMark : List Char := "<think>".toList

def thinkCloseMark : List Char := "</think>".toList

/-- One `re.sub` pass: find the leftmost `<think>`; if some `</think>`
follows it, delete through the earliest such closer and continue after
it.  `fuel` bounds recursion (the scanned remainder strictly shrinks,
so `fuel = s.length` always suffices). -/
def removeThinkAux : Nat → List Char → List Char
  | 0, s => s
  | Nat.succ fuel, s =>
    match findSubstr thinkOpenMark s with
    | none => s
    | some i =>
      match findSubstr thinkCloseMark (s.drop (i + 7)) with
      | none => s
      | some d =>
        s.take i ++ removeThinkAux fuel (s.drop (i + 7 + d + 8))

/-- `remove_think_tags` from groq_client.py: strip `<think>…</think>`
segments, then trim surrounding whitespace. -/
def remove_think_tags (text : String) : String :=
  String.mk (pyStrip (removeThinkAux text.data.length text.data))

/-! ## Rule-based fallback classifier (groq_client.py lines 436-485) -/

/-- `detect_frontend_framework`: keyword precedence
react > vue > angular > generic html-ish > none. -/
def detect_frontend_framework (description : String) : Option String :=
  let dl := lowerL description
  if containsSub "react".toList dl then some "react"
  else if containsSub "vue".toList dl then some "vue"
  else if containsSub "angular".toList dl then some "angular"
  else if (["html", "webpage", "website"] : List String).any
      (fun k => containsSub k.toList dl) then some "html"
  else none

/-- The `simple_indicators` list of `detect_stack_fallback`. -/
def simple_indicators : List String :=
  ["function", "print", "calculate", "loop", "algorithm", "script"]

/-- The API/server keyword list of `detect_stack_fallback`. -/
def api_indicators : List String :=
  ["api", "server", "web", "endpoint", "rest"]

/-- `detect_stack_fallback`: returns `(language, framework, use_framework)`. -/
def detect_stack_fallback (description : String) : String × String × Bool :=
  let dl := lowerL description
  let is_simple := simple_indicators.any (fun k => containsSub k.toList dl)
  let lf : String × String :=
    if containsSub "javascript".toList dl || containsSub "node".toList dl then
      ("javascript", "express")
    else if containsSub "java".toList dl && !containsSub "javascript".toList dl then
      ("java", "spring")
    else
      ("python", "fastapi")
  let use_framework :=
    !is_simple && api_indicators.any (fun k => containsSub k.toList dl)
  (lf.1, lf.2, use_framework)

/-! ## `CodeAnalysis` and `determine_generation_types`
(groq_client.py lines 30-43 and 488-503) -/

/-- The `CodeAnalysis` pydantic model. -/
structure CodeAnalysis where
  language : String
  requires_framework : Bool
  framework : Option String
  frontend_framework : Option String
  code_type : String
  components_needed : List String
  ui_type : Option String
deriving DecidableEq

/-- The six boolean artifact flags (the `generate_types` dictionary,
keys in the order the source dict literal writes them). -/
structure GenTypes where
  ui_code : Bool
  db_schema : Bool
  backend_code : Bool
  db_queries : Bool
  tech_docs : Bool
  er_diagram : Bool
deriving DecidableEq

/-- Python `any(generate_types.values())`. -/
def GenTypes.anyTrue (g : GenTypes) : Bool :=
  g.ui_code || g.db_schema || g.backend_code || g.db_queries || g.tech_docs || g.er_diagram

/-- `determine_generation_types`: membership of each artifact name in
`analysis.components_needed`; if no flag is set, force `backend_code`. -/
def determine_generation_types (analysis : CodeAnalysis) : GenTypes :=
  let generate_types : GenTypes :=
    { ui_code := analysis.components_needed.contains "ui_code"
      db_schema := analysis.components_needed.contains "db_schema"
      backend_code := analysis.components_needed.contains "backend_code"
      db_queries := analysis.components_needed.contains "db_queries"
      tech_docs := analysis.components_needed.contains "tech_docs"
      er_diagram := analysis.components_needed.contains "er_diagram" }
  if generate_types.anyTrue then generate_types
  else { generate_types with backend_code := true }

/-- The resolution step of main.py lines 284-287: a caller-supplied
selection with at least one flag wins; otherwise the set is derived
from the classification analysis. -/
def resolveGenerateTypes (g : GenTypes) (analysis : CodeAnalysis) : GenTypes :=
  if g.anyTrue then g else determine_generation_types analysis

/-! ## Backend-code template selection
(groq_client.py lines 131-185 and 548-574)

`CODE_GENERATION_PROMPTS` holds three templates; `generate_backend_code`
picks one from `analysis.code_type` / `analysis.requires_framework`. -/

/-- Which entry of `CODE_GENERATION_PROMPTS` is used. -/
inductive BackendTemplate
  | simple_function
  | web_api
  | core_script
deriving DecidableEq

/-- `CODE_GENERATION_PROMPTS[...]["prompt_template"]` for each entry. -/
def backendTemplateText : BackendTemplate → String
  | .simple_function =>
    "\nYou are an expert {language} developer. Generate a clean, simple {language} function or script.\n\nRequirements: {description}\n\nRules:\n- Use only standard library (no external dependencies)\n- Create standalone, executable code\n- Include clear variable names and comments\n- For \"print X times\" requests, use simple loops\n- Output ONLY the code, no explanations\n\nCode:\n"
  | .web_api =>
    "\nYou are an expert backend developer specializing in {language} and {framework}.\n\nRequirements: {description}\n\nGenerate production-ready {framework} code with:\n- Clean API structure\n- Proper error handling\n- RESTful endpoints\n- Input validation\n- CORS configuration for frontend integration\n\nOutput ONLY the code:\n"
  | .core_script =>
    "\nYou are an expert {language} developer. Create a core {language} script using only standard library.\n\nRequirements: {description}\n\nRules:\n- No external libraries or frameworks\n- Clean, readable code\n- Proper error handling\n- Include main execution block if appropriate\n\nOutput ONLY the code:\n"

/-- The `if` / `elif` / `else` of `generate_backend_code` (lines 553-559):
`if analysis.code_type == "simple_function" or not analysis.requires_framework`
then simple_function; `elif analysis.requires_framework` then web_api;
`else` core_script. -/
def chooseBackendTemplate (analysis : CodeAnalysis) : BackendTemplate :=
  if analysis.code_type = "simple_function" ∨ analysis.requires_framework = false then
    .simple_function
  else if analysis.requires_framework then
    .web_api
  else
    .core_script

/-! ## `file_to_text` (file_processing.py lines 12-56)

The filesystem / OCR / parsing calls are oracles; the function body is
the extension dispatch plus the `try`/`except` that replaces any
failure by a fixed sentinel string. -/

/-- Outcomes of the per-format extraction calls
(PIL+pytesseract, PyPDF2, csv, json, raw read). -/
structure FileOracles where
  imageOcr : Except String String
  pdfText : Except String String
  csvText : Except String String
  jsonText : Except String String
  rawRead : Except String String

/-- Index of the last occurrence of `c` (Python `str.rfind`),
`none` when absent. -/
def lastIdxOf (c : Char) : List Char → Option Nat
  | [] => none
  | a :: rest =>
    match lastIdxOf c rest with
    | some i => some (i + 1)
    | none => if a = c then some 0 else none

/-- `os.path.splitext(file_path)[1].lower()`: the extension starts at the
last dot that lies after the last path separator, provided some non-dot
character of the basename precedes it. -/
def splitextExtLower (path : String) : String :=
  let p := path.toList
  let sep : Int := match lastIdxOf '/' p with | some i => (i : Int) | none => -1
  let dot : Int := match lastIdxOf '.' p with | some i => (i : Int) | none => -1
  if sep < dot then
    let name := (p.drop (sep + 1).toNat).take (dot - sep - 1).toNat
    if name.any (fun ch => ch != '.') then
      String.mk ((p.drop dot.toNat).map Char.toLower)
    else ""
  else ""

/-- The extension dispatch inside the `try` block. -/
def dispatchExtract (ext : String) (io : FileOracles) : Except String String :=
  if ext = ".png" ∨ ext = ".jpg" ∨ ext = ".jpeg" then io.imageOcr
  else if ext = ".pdf" then io.pdfText
  else if ext = ".csv" then io.csvText
  else if ext = ".json" then io.jsonText
  else io.rawRead

/-- `file_to_text`: total; any failure of the dispatched extraction is
caught and replaced by the sentinel string. -/
def file_to_text (path : String) (io : FileOracles) : String :=
  match dispatchExtract (splitextExtLower path) io with
  | .ok t => t
  | .error _ => "File content could not be extracted"

/-! ## The generation stream (main.py lines 147-483)

`generation_stream` is embedded as a function of an oracle environment
`Env` describing the outcome of every external interaction, returning
the full ordered list of emitted SSE events plus the persisted record.
The `progress` step labels of the source ("UI", "DB Schema", …) are
identified with the artifact kind they announce, and the per-kind SSE
event names ("ui_code", "db_schema", …) with `Ev.artifact kind`. -/

/-- The closed artifact enumeration. -/
inductive ArtifactKind
  | ui_code
  | db_schema
  | er_diagram
  | backend_code
  | db_queries
  | tech_docs
deriving DecidableEq

/-- The fixed order in which main.py's `generation_stream` runs the
artifact blocks (lines 289, 322, 346, 370, 405, 429). -/
def artifactOrder : List ArtifactKind :=
  [.ui_code, .db_schema, .er_diagram, .backend_code, .db_queries, .tech_docs]

/-- Projection of a `GenTypes` dictionary at an artifact kind
(`generate_types.get(...)` in the source). -/
def GenTypes.get (g : GenTypes) : ArtifactKind → Bool
  | .ui_code => g.ui_code
  | .db_schema => g.db_schema
  | .er_diagram => g.er_diagram
  | .backend_code => g.backend_code
  | .db_queries => g.db_queries
  | .tech_docs => g.tech_docs

/-- `progress` event status. -/
inductive EvTag
  | started
  | completed
deriving DecidableEq

/-- One SSE event of the stream. -/
inductive Ev
  | config (backend_language framework : String)
      (frontend_framework : Option String) (use_framework : Bool)
  | progress (k : ArtifactKind) (t : EvTag)
  | artifact (k : ArtifactKind) (content : String)
  | error (msg : String)
  | warning (msg : String)
  | complete (id : Nat)
deriving DecidableEq

/-- The persisted `GenerationRecord` row, with exactly the columns
declared in models.py lines 11-25.  Note: models.py declares no
`er_diagram` and no `frontend_framework` column. -/
structure GenerationRecord where
  id : Nat
  image_path : Option String
  prompt : String
  description : Option String
  ui_code : Option String
  db_schema : Option String
  backend_code : Option String
  db_queries : Option String
  tech_docs : Option String
  backend_language : Option String
  framework : Option String
deriving DecidableEq

/-- What `get_generation` (main.py lines 559-585) can read back from the
store for each artifact kind: the mapped column, and for `er_diagram` —
for which models.py declares no column, read via
`getattr(record, "er_diagram", None)` — always `none` on a fresh load. -/
def storedArtifact (r : GenerationRecord) : ArtifactKind → Option String
  | .ui_code => r.ui_code
  | .db_schema => r.db_schema
  | .er_diagram => none
  | .backend_code => r.backend_code
  | .db_queries => r.db_queries
  | .tech_docs => r.tech_docs

/-- Outcome of one artifact block's external calls: the generation call
(`generate_*`) and the `db.commit()` that follows it inside the same
`try`. -/
structure StepOutcome where
  gen : Except String String
  commitOk : Bool

/-- Oracle environment for one run of `generation_stream`. -/
structure Env where
  /-- the `SELECT 1 FROM generation_records` probe succeeds -/
  tableOk : Bool
  /-- the commit creating the record succeeds -/
  createCommitOk : Bool
  /-- outcome of `image_to_text` when a file was uploaded -/
  extractResult : Except String String
  /-- the commit persisting the description succeeds -/
  descCommitOk : Bool
  /-- outcome of the model-assisted `analyze_request` chain invocation -/
  analysisResult : Except String CodeAnalysis
  /-- outcome of the model-assisted `detect_stack_with_langchain` chain
  invocation: `(backend_language, framework, use_framework, frontend_framework)` -/
  stackResult : Except String (String × String × Bool × Option String)
  /-- the bare commit of language/framework (main.py line 269) succeeds -/
  configCommitOk : Bool
  /-- per-artifact outcomes -/
  step : ArtifactKind → StepOutcome
  /-- id assigned to the record at creation -/
  recordId : Nat
  /-- `os.path.exists(file_path)` at cleanup time -/
  fileStillExists : Bool
  /-- `os.remove(file_path)` succeeds -/
  deleteOk : Bool

/-- `analyze_request` never raises: on any chain failure it returns the
fixed fallback analysis (groq_client.py lines 398-413). -/
def fallbackAnalysis : CodeAnalysis :=
  { language := "python"
    requires_framework := false
    framework := none
    frontend_framework := none
    code_type := "simple_function"
    components_needed := ["backend_code"]
    ui_type := none }

/-- The analysis the run ends up with. -/
def analysisOf (env : Env) : CodeAnalysis :=
  match env.analysisResult with
  | .ok a => a
  | .error _ => fallbackAnalysis

/-- `detect_stack_with_langchain` never raises: on chain failure it
falls back to `detect_stack_fallback` + `detect_frontend_framework`
(groq_client.py lines 416-433). -/
def stackOf (env : Env) (description : String) :
    String × String × Bool × Option String :=
  match env.stackResult with
  | .ok t => t
  | .error _ =>
    let lf := detect_stack_fallback description
    (lf.1, lf.2.1, lf.2.2, detect_frontend_framework description)

/-- The artifact-set resolution actually performed by the run
(main.py lines 284-287). -/
def resolvedGenTypes (env : Env) (g : GenTypes) : GenTypes :=
  resolveGenerateTypes g (analysisOf env)

/-- The description text available after the (optional) extraction step:
empty without a file, otherwise the extraction outcome. -/
def descResult (env : Env) (fp : Option String) : Except String String :=
  match fp with
  | none => .ok ""
  | some _ => env.extractResult

/-- The error-message label of each artifact block's `except` handler. -/
def kindFailLabel : ArtifactKind → String
  | .ui_code => "UI code generation failed: "
  | .db_schema => "DB schema generation failed: "
  | .er_diagram => "E-R diagram generation failed: "
  | .backend_code => "Backend code generation failed: "
  | .db_queries => "DB queries generation failed: "
  | .tech_docs => "Documentation generation failed: "

/-- `record.<field> = content; db.commit()` for one artifact.  Returns
the persisted record and the in-memory `er_diagram` attribute: since
models.py maps no `er_diagram` column, the assignment
`record.er_diagram = er_diagram` (main.py line 350) sets only an
unmapped Python attribute, which the commit does not write. -/
def setArtifactField (r : GenerationRecord) (erAttr : Option String)
    (k : ArtifactKind) (content : String) : GenerationRecord × Option String :=
  match k with
  | .ui_code => ({ r with ui_code := some content }, erAttr)
  | .db_schema => ({ r with db_schema := some content }, erAttr)
  | .er_diagram => (r, some content)
  | .backend_code => ({ r with backend_code := some content }, erAttr)
  | .db_queries => ({ r with db_queries := some content }, erAttr)
  | .tech_docs => ({ r with tech_docs := some content }, erAttr)

/-- Result of running the per-artifact blocks. -/
structure StepsResult where
  events : List Ev
  record : GenerationRecord
  erAttr : Option String
  ok : Bool
deriving DecidableEq

/-- The sequence of per-artifact blocks of `generation_stream`
(main.py lines 289-451), one block per kind, in the fixed order, each
guarded by its flag: emit `progress started`; on generation + commit
success persist the field and emit the `artifact` event then
`progress completed`; on any failure emit `error` and stop the run. -/
def runSteps (env : Env) (g : GenTypes) :
    List ArtifactKind → GenerationRecord → Option String → StepsResult
  | [], r, er => ⟨[], r, er, true⟩
  | k :: rest, r, er =>
    if g.get k then
      match (env.step k).gen with
      | .error e =>
        ⟨[Ev.progress k .started, Ev.error (kindFailLabel k ++ e)], r, er, false⟩
      | .ok content =>
        if (env.step k).commitOk then
          let r' := (setArtifactField r er k content).1
          let er' := (setArtifactField r er k content).2
          let s := runSteps env g rest r' er'
          ⟨Ev.progress k .started :: Ev.artifact k content ::
             Ev.progress k .completed :: s.events, s.record, s.erAttr, s.ok⟩
        else
          ⟨[Ev.progress k .started, Ev.error (kindFailLabel k ++ "commit failed")],
            r, er, false⟩
    else runSteps env g rest r er

/-- Best-effort post-run file deletion (main.py lines 456-470):
a failed delete is downgraded to a `warning` event. -/
def cleanupEvents (env : Env) (fp : Option String) : List Ev :=
  match fp with
  | some _ =>
    if env.fileStillExists && !env.deleteOk then
      [Ev.warning "Failed to delete uploaded file"]
    else []
  | none => []

/-- The freshly created record (main.py lines 168-176). -/
def initRecord (env : Env) (fp : Option String) (prompt : String) : GenerationRecord :=
  { id := env.recordId
    image_path := fp
    prompt := prompt
    description := none
    ui_code := none
    db_schema := none
    backend_code := none
    db_queries := none
    tech_docs := none
    backend_language := none
    framework := none }

/-- Result of one run: the ordered event list, the persisted record (if
one was created), and the in-memory-only `er_diagram` attribute. -/
structure RunResult where
  events : List Ev
  record : Option GenerationRecord
  erAttr : Option String
deriving DecidableEq

/-- `generation_stream` (main.py lines 147-483). -/
def generation_stream (env : Env) (fp : Option String) (prompt : String)
    (g : GenTypes) : RunResult :=
  if env.tableOk then
    if env.createCommitOk then
      let r0 := initRecord env fp prompt
      match descResult env fp with
      | .error e => ⟨[Ev.error ("Image processing failed: " ++ e)], some r0, none⟩
      | .ok description =>
        let full := description ++ "\n\nUser Requirements: " ++ prompt
        if env.descCommitOk then
          let r1 := { r0 with description := some full }
          let st := stackOf env full
          let r2 := { r1 with
            backend_language := some st.1
            framework := some (if st.2.2.1 then st.2.1 else "core") }
          if env.configCommitOk then
            let gts := resolvedGenTypes env g
            let sr := runSteps env gts artifactOrder r2 none
            let tailEvents :=
              if sr.ok then Ev.complete env.recordId :: cleanupEvents env fp
              else []
            ⟨Ev.config st.1 st.2.1 st.2.2.2 st.2.2.1 :: (sr.events ++ tailEvents),
              some sr.record, sr.erAttr⟩
          else ⟨[Ev.error "Unexpected error: commit failed"], some r1, none⟩
        else ⟨[Ev.error "Failed to update record description"], some r0, none⟩
    else ⟨[Ev.error "Failed to save record to database"], none, none⟩
  else ⟨[Ev.error "Database table generation_records does not exist"], none, none⟩

/-! ## Observation helpers for the ordering / halting properties -/

/-- Tags of the `progress`/`artifact` projection of a stream. -/
inductive PA
  | started
  | art
  | completed
deriving DecidableEq

/-- Classify one event for the `progress`/`artifact` projection;
`config`, `error`, `warning` and `complete` events are dropped. -/
def paOfEv : Ev → Option (ArtifactKind × PA)
  | Ev.progress k EvTag.started => some (k, PA.started)
  | Ev.progress k EvTag.completed => some (k, PA.completed)
  | Ev.artifact k _ => some (k, PA.art)
  | _ => none

/-- The stream's `progress`/`artifact` projection. -/
def paProj (l : List Ev) : List (ArtifactKind × PA) :=
  l.filterMap paOfEv

/-- The canonical within-kind pattern: started, artifact, completed. -/
def kindPattern (k : ArtifactKind) : List (ArtifactKind × PA) :=
  [(k, PA.started), (k, PA.art), (k, PA.completed)]

/-- The canonical pattern over a kind list restricted to the flags. -/
def patternFor (g : GenTypes) : List ArtifactKind → List (ArtifactKind × PA)
  | [] => []
  | k :: rest => (if g.get k then kindPattern k else []) ++ patternFor g rest

/-- The canonical event pattern of the spec: the fixed total order
`[ui_code, db_schema, er_diagram, backend_code, db_queries, tech_docs]`
restricted to the requested subset, each kind contributing
started / artifact / completed. -/
def canonicalPattern (g : GenTypes) : List (ArtifactKind × PA) :=
  patternFor g artifactOrder

/-- `a` is an initial segment of `b`. -/
def ListLeads {α : Type} (a b : List α) : Prop :=
  ∃ t, a ++ t = b

/-- The artifact block for `k` runs to completion: the generation call
returns and the following commit succeeds. -/
def stepSucceeds (env : Env) (k : ArtifactKind) : Bool :=
  match (env.step k).gen with
  | .ok _ => (env.step k).commitOk
  | .error _ => false

/-! ## Concrete instances used by individual claims -/

/-- All six artifact flags on. -/
def allSixTypes : GenTypes :=
  ⟨true, true, true, true, true, true⟩

/-- No artifact flag on (the caller supplied no selection). -/
def noneRequested : GenTypes :=
  ⟨false, false, false, false, false, false⟩

/-- Only `backend_code` on. -/
def backendOnlyTypes : GenTypes :=
  ⟨false, false, true, false, false, false⟩

/-- A classification analysis listing no components (a non-empty prompt
that matched zero keywords). -/
def noComponentAnalysis : CodeAnalysis :=
  { language := "python"
    requires_framework := false
    framework := none
    frontend_framework := none
    code_type := "simple_function"
    components_needed := []
    ui_type := none }

/-- The explicit script-without-framework analysis of claim C4. -/
def scriptAnalysis : CodeAnalysis :=
  { language := "python"
    requires_framework := false
    framework := none
    frontend_framework := none
    code_type := "script"
    components_needed := ["backend_code"]
    ui_type := none }

/-- A fixed content string per artifact kind for concrete runs. -/
def sampleText : ArtifactKind → String
  | .ui_code => "UI"
  | .db_schema => "SCHEMA"
  | .er_diagram => "ER"
  | .backend_code => "CODE"
  | .db_queries => "QUERIES"
  | .tech_docs => "DOCS"

/-- Every artifact block succeeds, producing `sampleText`. -/
def stepsAllOk : ArtifactKind → StepOutcome :=
  fun k => ⟨.ok (sampleText k), true⟩

/-- The backend_code generation call fails; every other block succeeds. -/
def stepsFailBackend : ArtifactKind → StepOutcome :=
  fun k => match k with
  | .backend_code => ⟨.error "boom", true⟩
  | _ => ⟨.ok (sampleText k), true⟩

/-- A base environment where every database interaction succeeds and the
model-assisted classification returned a fixed stack, parameterized by
the per-artifact outcomes. -/
def mkOkEnv (steps : ArtifactKind → StepOutcome) : Env :=
  { tableOk := true
    createCommitOk := true
    extractResult := .ok ""
    descCommitOk := true
    analysisResult := .ok fallbackAnalysis
    stackResult := .ok ("python", "fastapi", true, none)
    configCommitOk := true
    step := steps
    recordId := 7
    fileStillExists := false
    deleteOk := true }

/-- Environment for claim C3's failing run. -/
def envFailBackend : Env := mkOkEnv stepsFailBackend

/-- Environment for claim C5's fully successful run. -/
def envAllOk : Env := mkOkEnv stepsAllOk

/-- Oracles for a failing image extraction (claim C9's witness). -/
def ocrFailOracles : FileOracles :=
  { imageOcr := .error "ocr failed"
    pdfText := .ok "pdf"
    csvText := .ok "csv"
    jsonText := .ok "json"
    rawRead := .ok "raw" }

/-! ## Helper lemmas -/

theorem lenDropWhileLe (p : Char → Bool) (l : List Char) :
    (l.dropWhile p).length ≤ l.length := by
  induction l with
  | nil => simp
  | cons a t ih =>
    rw [List.dropWhile_cons]
    split
    · exact Nat.le_trans ih (Nat.le_succ _)
    · simp

theorem dropWhile_dropWhile (p : Char → Bool) (l : List Char) :
    (l.dropWhile p).dropWhile p = l.dropWhile p := by
  induction l with
  | nil => rfl
  | cons a t ih =>
    rw [List.dropWhile_cons]
    split
    · exact ih
    · rw [List.dropWhile_cons]
      simp [*]

theorem dropWhile_eq_self_of_append (p : Char → Bool) {l m t : List Char}
    (h : l.dropWhile p = l) (hm : m ++ t = l) : m.dropWhile p = m := by
  cases m with
  | nil => rfl
  | cons a m' =>
    subst hm
    rw [List.cons_append] at h
    rw [List.dropWhile_cons] at h ⊢
    split at h
    · exfalso
      have h1 := congrArg List.length h
      have h2 := lenDropWhileLe p (m' ++ t)
      simp only [List.length_cons] at h1
      omega
    · next hpa =>
      simp [hpa]

theorem pyStrip_leads_dropWhile (l : List Char) :
    ∃ t, pyStrip l ++ t = l.dropWhile isPySpace := by
  refine ⟨((l.dropWhile isPySpace).reverse.takeWhile isPySpace).reverse, ?_⟩
  unfold pyStrip
  rw [← List.reverse_append, List.takeWhile_append_dropWhile, List.reverse_reverse]

theorem dropWhile_pyStrip (l : List Char) :
    (pyStrip l).dropWhile isPySpace = pyStrip l := by
  obtain ⟨t, ht⟩ := pyStrip_leads_dropWhile l
  exact dropWhile_eq_self_of_append isPySpace (dropWhile_dropWhile _ _) ht

theorem dropWhile_reverse_pyStrip (l : List Char) :
    (pyStrip l).reverse.dropWhile isPySpace = (pyStrip l).reverse := by
  unfold pyStrip
  rw [List.reverse_reverse]
  exact dropWhile_dropWhile _ _

theorem pyStrip_pyStrip (l : List Char) : pyStrip (pyStrip l) = pyStrip l := by
  show (((pyStrip l).dropWhile isPySpace).reverse.dropWhile isPySpace).reverse = pyStrip l
  rw [dropWhile_pyStrip, dropWhile_reverse_pyStrip, List.reverse_reverse]

theorem removeThinkAux_of_no_open (n : Nat) (s : List Char)
    (h : findSubstr thinkOpenMark s = none) : removeThinkAux n s = s := by
  cases n with
  | zero => rfl
  | succ m =>
    unfold removeThinkAux
    rw [h]

theorem remove_think_tags_of_no_open (t : String)
    (h : findSubstr thinkOpenMark t.data = none) :
    remove_think_tags t = String.mk (pyStrip t.data) := by
  unfold remove_think_tags
  rw [removeThinkAux_of_no_open _ _ h]

theorem paProj_nil : paProj [] = [] := rfl

theorem paProj_cons_started (k : ArtifactKind) (l : List Ev) :
    paProj (Ev.progress k EvTag.started :: l) = (k, PA.started) :: paProj l := rfl

theorem paProj_cons_completed (k : ArtifactKind) (l : List Ev) :
    paProj (Ev.progress k EvTag.completed :: l) = (k, PA.completed) :: paProj l := rfl

theorem paProj_cons_artifact (k : ArtifactKind) (c : String) (l : List Ev) :
    paProj (Ev.artifact k c :: l) = (k, PA.art) :: paProj l := rfl

theorem paProj_cons_config (a b : String) (c : Option String) (d : Bool) (l : List Ev) :
    paProj (Ev.config a b c d :: l) = paProj l := rfl

theorem paProj_cons_error (m : String) (l : List Ev) :
    paProj (Ev.error m :: l) = paProj l := rfl

theorem paProj_cons_warning (m : String) (l : List Ev) :
    paProj (Ev.warning m :: l) = paProj l := rfl

theorem paProj_cons_complete (i : Nat) (l : List Ev) :
    paProj (Ev.complete i :: l) = paProj l := rfl

theorem paProj_append (a b : List Ev) :
    paProj (a ++ b) = paProj a ++ paProj b :=
  List.filterMap_append a b paOfEv

theorem listLeads_nil {α : Type} (b : List α) : ListLeads [] b :=
  ⟨b, rfl⟩

theorem listLeads_cons {α : Type} (x : α) {a b : List α}
    (h : ListLeads a b) : ListLeads (x :: a) (x :: b) := by
  obtain ⟨t, ht⟩ := h
  exact ⟨t, by rw [List.cons_append, ht]⟩

theorem paProj_cleanup (env : Env) (fp : Option String) :
    paProj (cleanupEvents env fp) = [] := by
  cases fp with
  | none => rfl
  | some p =>
    show paProj (if env.fileStillExists && !env.deleteOk then
      [Ev.warning "Failed to delete uploaded file"] else []) = []
    split <;> rfl

theorem paProj_tail (env : Env) (fp : Option String) (b : Bool) :
    paProj (if b then Ev.complete env.recordId :: cleanupEvents env fp else []) = [] := by
  cases b with
  | false => rfl
  | true =>
    show paProj (Ev.complete env.recordId :: cleanupEvents env fp) = []
    rw [paProj_cons_complete, paProj_cleanup]

theorem runSteps_cons_skip (env : Env) (g : GenTypes) (k : ArtifactKind)
    (rest : List ArtifactKind) (r : GenerationRecord) (er : Option String)
    (hk : g.get k = false) :
    runSteps env g (k :: rest) r er = runSteps env g rest r er := by
  simp [runSteps, hk]

theorem runSteps_cons_error (env : Env) (g : GenTypes) (k : ArtifactKind)
    (rest : List ArtifactKind) (r : GenerationRecord) (er : Option String)
    (e : String) (hk : g.get k = true) (hg : (env.step k).gen = .error e) :
    runSteps env g (k :: rest) r er =
      ⟨[Ev.progress k .started, Ev.error (kindFailLabel k ++ e)], r, er, false⟩ := by
  simp [runSteps, hk, hg]

theorem runSteps_cons_noCommit (env : Env) (g : GenTypes) (k : ArtifactKind)
    (rest : List ArtifactKind) (r : GenerationRecord) (er : Option String)
    (c : String) (hk : g.get k = true) (hg : (env.step k).gen = .ok c)
    (hc : (env.step k).commitOk = false) :
    runSteps env g (k :: rest) r er =
      ⟨[Ev.progress k .started, Ev.error (kindFailLabel k ++ "commit failed")],
        r, er, false⟩ := by
  simp [runSteps, hk, hg, hc]

theorem runSteps_cons_ok (env : Env) (g : GenTypes) (k : ArtifactKind)
    (rest : List ArtifactKind) (r : GenerationRecord) (er : Option String)
    (c : String) (hk : g.get k = true) (hg : (env.step k).gen = .ok c)
    (hc : (env.step k).commitOk = true) :
    runSteps env g (k :: rest) r er =
      ⟨Ev.progress k .started :: Ev.artifact k c :: Ev.progress k .completed ::
         (runSteps env g rest (setArtifactField r er k c).1
           (setArtifactField r er k c).2).events,
       (runSteps env g rest (setArtifactField r er k c).1
         (setArtifactField r er k c).2).record,
       (runSteps env g rest (setArtifactField r er k c).1
         (setArtifactField r er k c).2).erAttr,
       (runSteps env g rest (setArtifactField r er k c).1
         (setArtifactField r er k c).2).ok⟩ := by
  simp [runSteps, hk, hg, hc]

theorem patternFor_cons_true (g : GenTypes) (k : ArtifactKind)
    (rest : List ArtifactKind) (hk : g.get k = true) :
    patternFor g (k :: rest) = kindPattern k ++ patternFor g rest := by
  simp [patternFor, hk]

theorem patternFor_cons_false (g : GenTypes) (k : ArtifactKind)
    (rest : List ArtifactKind) (hk : g.get k = false) :
    patternFor g (k :: rest) = patternFor g rest := by
  simp [patternFor, hk]

theorem runSteps_leads (env : Env) (g : GenTypes) :
    ∀ (kinds : List ArtifactKind) (r : GenerationRecord) (er : Option String),
      ListLeads (paProj (runSteps env g kinds r er).events) (patternFor g kinds) := by
  intro kinds
  induction kinds with
  | nil =>
    intro r er
    exact listLeads_nil _
  | cons k rest ih =>
    intro r er
    cases hk : g.get k with
    | false =>
      rw [runSteps_cons_skip env g k rest r er hk, patternFor_cons_false g k rest hk]
      exact ih r er
    | true =>
      rw [patternFor_cons_true g k rest hk]
      cases hgen : (env.step k).gen with
      | error e =>
        rw [runSteps_cons_error env g k rest r er e hk hgen]
        exact listLeads_cons (k, PA.started)
          ⟨(k, PA.art) :: (k, PA.completed) :: patternFor g rest, rfl⟩
      | ok c =>
        cases hc : (env.step k).commitOk with
        | false =>
          rw [runSteps_cons_noCommit env g k rest r er c hk hgen hc]
          exact listLeads_cons (k, PA.started)
            ⟨(k, PA.art) :: (k, PA.completed) :: patternFor g rest, rfl⟩
        | true =>
          rw [runSteps_cons_ok env g k rest r er c hk hgen hc]
          exact listLeads_cons _ (listLeads_cons _ (listLeads_cons _ (ih _ _)))

theorem runSteps_eq_of_all_ok (env : Env) (g : GenTypes) :
    ∀ (kinds : List ArtifactKind) (r : GenerationRecord) (er : Option String),
      (∀ k, k ∈ kinds → g.get k = true → stepSucceeds env k = true) →
      paProj (runSteps env g kinds r er).events = patternFor g kinds ∧
      (runSteps env g kinds r er).ok = true := by
  intro kinds
  induction kinds with
  | nil =>
    intro r er _
    exact ⟨rfl, rfl⟩
  | cons k rest ih =>
    intro r er h
    have hrest : ∀ k', k' ∈ rest → g.get k' = true → stepSucceeds env k' = true :=
      fun k' h1 h2 => h k' (List.mem_cons_of_mem _ h1) h2
    cases hk : g.get k with
    | false =>
      rw [runSteps_cons_skip env g k rest r er hk, patternFor_cons_false g k rest hk]
      exact ih r er hrest
    | true =>
      have hs := h k (List.mem_cons_self _ _) hk
      unfold stepSucceeds at hs
      cases hgen : (env.step k).gen with
      | error e =>
        rw [hgen] at hs
        simp at hs
      | ok c =>
        rw [hgen] at hs
        simp only at hs
        rw [patternFor_cons_true g k rest hk,
            runSteps_cons_ok env g k rest r er c hk hgen hs]
        obtain ⟨h1, h2⟩ :=
          ih (setArtifactField r er k c).1 (setArtifactField r er k c).2 hrest
        constructor
        · rw [paProj_cons_started, paProj_cons_artifact, paProj_cons_completed, h1]
          rfl
        · exact h2

/-- Claim C2: in every run, the stream's `progress`/`artifact` projection
is an initial segment of the canonical pattern — the fixed total order
`[ui_code, db_schema, er_diagram, backend_code, db_queries, tech_docs]`
restricted to the resolved artifact subset, with started ≺ artifact ≺
completed inside each kind — and when every phase and every requested
artifact block succeeds, the projection is exactly that pattern; no
other interleaving can occur. -/
theorem claim_C2_theorem (env : Env) (fp : Option String) (prompt : String)
    (g : GenTypes) :
    ListLeads (paProj (generation_stream env fp prompt g).events)
      (canonicalPattern (resolvedGenTypes env g)) ∧
    (∀ dsc, descResult env fp = Except.ok dsc →
      env.tableOk = true → env.createCommitOk = true →
      env.descCommitOk = true → env.configCommitOk = true →
      (∀ k, (resolvedGenTypes env g).get k = true → stepSucceeds env k = true) →
      paProj (generation_stream env fp prompt g).events =
        canonicalPattern (resolvedGenTypes env g)) := by
  have main : ∀ dsc : String, descResult env fp = Except.ok dsc →
      env.tableOk = true → env.createCommitOk = true →
      env.descCommitOk = true → env.configCommitOk = true →
      ∃ r : GenerationRecord,
        (generation_stream env fp prompt g).events =
          Ev.config (stackOf env (dsc ++ "\n\nUser Requirements: " ++ prompt)).1
              (stackOf env (dsc ++ "\n\nUser Requirements: " ++ prompt)).2.1
              (stackOf env (dsc ++ "\n\nUser Requirements: " ++ prompt)).2.2.2
              (stackOf env (dsc ++ "\n\nUser Requirements: " ++ prompt)).2.2.1 ::
            ((runSteps env (resolvedGenTypes env g) artifactOrder r none).events ++
              (if (runSteps env (resolvedGenTypes env g) artifactOrder r none).ok then
                Ev.complete env.recordId :: cleanupEvents env fp
              else [])) := by
    intro dsc hd h1 h2 h3 h4
    simp only [generation_stream, h1, h2, hd, h3, h4, if_true]
    exact ⟨_, rfl⟩
  constructor
  · cases h1 : env.tableOk with
    | false =>
      have he : (generation_stream env fp prompt g).events =
          [Ev.error "Database table generation_records does not exist"] := by
        simp [generation_stream, h1]
      rw [he]
      exact listLeads_nil _
    | true =>
      cases h2 : env.createCommitOk with
      | false =>
        have he : (generation_stream env fp prompt g).events =
            [Ev.error "Failed to save record to database"] := by
          simp [generation_stream, h1, h2]
        rw [he]
        exact listLeads_nil _
      | true =>
        cases hd : descResult env fp with
        | error e =>
          have he : (generation_stream env fp prompt g).events =
              [Ev.error ("Image processing failed: " ++ e)] := by
            simp [generation_stream, h1, h2, hd]
          rw [he]
          exact listLeads_nil _
        | ok dsc =>
          cases h3 : env.descCommitOk with
          | false =>
            have he : (generation_stream env fp prompt g).events =
                [Ev.error "Failed to update record description"] := by
              simp [generation_stream, h1, h2, hd, h3]
            rw [he]
            exact listLeads_nil _
          | true =>
            cases h4 : env.configCommitOk with
            | false =>
              have he : (generation_stream env fp prompt g).events =
                  [Ev.error "Unexpected error: commit failed"] := by
                simp [generation_stream, h1, h2, hd, h3, h4]
              rw [he]
              exact listLeads_nil _
            | true =>
              obtain ⟨r, hr⟩ := main dsc hd h1 h2 h3 h4
              rw [hr, paProj_cons_config, paProj_append, paProj_tail,
                List.append_nil]
              exact runSteps_leads env _ artifactOrder r none
  · intro dsc hd h1 h2 h3 h4 hsteps
    obtain ⟨r, hr⟩ := main dsc hd h1 h2 h3 h4
    rw [hr, paProj_cons_config, paProj_append, paProj_tail, List.append_nil]
    exact (runSteps_eq_of_all_ok env _ artifactOrder r none
      (fun k _ hk => hsteps k hk)).1

/-- Witness for C2 at a concrete fully-successful run: the projection of
the emitted events equals the canonical pattern for all six kinds. -/
theorem claim_C2_witness :
    paProj (generation_stream envAllOk none "p" allSixTypes).events =
      canonicalPattern (resolvedGenTypes envAllOk allSixTypes) :=
  (claim_C2_theorem envAllOk none "p" allSixTypes).2 "" rfl rfl rfl rfl rfl
    (fun k _ => by cases k <;> rfl)

/-- Counterexample to claim C1 as stated: with no caller flag set and a
classification analysis listing no components, the resolved artifact set
is NOT the full set of six kinds — it is exactly `{backend_code}`. -/
theorem claim_C1_counterexample :
    resolveGenerateTypes noneRequested noComponentAnalysis ≠ allSixTypes ∧
    resolveGenerateTypes noneRequested noComponentAnalysis = backendOnlyTypes := by
  decide

/-- Claim C1 (amended): if the caller supplies no artifact selection and
the classification analysis lists no components, the resolved artifact
set defaults to the single kind `backend_code` (forced on), the other
five staying off. -/
theorem claim_C1_theorem (g : GenTypes) (a : CodeAnalysis)
    (hg : g.anyTrue = false) (ha : a.components_needed = []) :
    resolveGenerateTypes g a = backendOnlyTypes := by
  unfold resolveGenerateTypes
  rw [hg]
  simp only [Bool.false_eq_true, if_false]
  simp [determine_generation_types, ha, GenTypes.anyTrue, backendOnlyTypes]

/-- Witness for C1's amended theorem at concrete inputs. -/
theorem claim_C1_witness :
    resolveGenerateTypes noneRequested noComponentAnalysis = backendOnlyTypes :=
  claim_C1_theorem noneRequested noComponentAnalysis (by decide) rfl

/-- Claim C10: `determine_generation_types` always returns at least one
true flag; in particular with an empty component list `backend_code` is
forced on, so every run attempts at least one artifact. -/
theorem claim_C10_theorem (a : CodeAnalysis) :
    (determine_generation_types a).anyTrue = true ∧
    (a.components_needed = [] →
      (determine_generation_types a).backend_code = true) := by
  constructor
  · simp only [determine_generation_types]
    split
    · next h => exact h
    · simp [GenTypes.anyTrue]
  · intro h
    simp [determine_generation_types, h, GenTypes.anyTrue]

/-- Witness for C10 at a concrete analysis with no components. -/
theorem claim_C10_witness :
    (determine_generation_types noComponentAnalysis).anyTrue = true ∧
    (determine_generation_types noComponentAnalysis).backend_code = true :=
  ⟨(claim_C10_theorem noComponentAnalysis).1,
   (claim_C10_theorem noComponentAnalysis).2 rfl⟩

/-- Counterexample to claim C4 as stated: for the explicit
script-without-framework analysis (`code_type = "script"`,
`requires_framework = false`), `generate_backend_code` selects the
simple-function template, not the core-script one. -/
theorem claim_C4_counterexample :
    chooseBackendTemplate scriptAnalysis = BackendTemplate.simple_function ∧
    chooseBackendTemplate scriptAnalysis ≠ BackendTemplate.core_script := by
  decide

set_option maxRecDepth 8192 in
/-- Claim C4 (amended): backend template selection has exactly two
reachable outcomes: the simple-function template (standard-library-only)
iff `codeType` is `simple_function` or no framework is required, and the
web-API template otherwise (framework required and `codeType` not
`simple_function`); the core-script branch is unreachable. -/
theorem claim_C4_theorem (a : CodeAnalysis) :
    chooseBackendTemplate a ≠ BackendTemplate.core_script ∧
    (chooseBackendTemplate a = BackendTemplate.simple_function ↔
      (a.code_type = "simple_function" ∨ a.requires_framework = false)) ∧
    (chooseBackendTemplate a = BackendTemplate.web_api ↔
      (a.code_type ≠ "simple_function" ∧ a.requires_framework = true)) ∧
    containsSub "Use only standard library".toList
      (backendTemplateText BackendTemplate.simple_function).toList = true := by
  refine ⟨?_, ?_, ?_, by decide⟩ <;>
    · by_cases hs : a.code_type = "simple_function"
      · simp [chooseBackendTemplate, hs]
      · cases hf : a.requires_framework with
        | false => simp [chooseBackendTemplate, hs, hf]
        | true => simp [chooseBackendTemplate, hs, hf]

/-- Counterexample to claim C6 as stated: `remove_think_tags` is not
idempotent — removing a span can splice the surrounding text into a
fresh marker pair, which only the next application removes.  On
`"<thi<think>Z</think>nk>W</think>"` one application yields
`"<think>W</think>"` and a second application yields `""`. -/
theorem claim_C6_counterexample :
    remove_think_tags (remove_think_tags "<thi<think>Z</think>nk>W</think>") ≠
      remove_think_tags "<thi<think>Z</think>nk>W</think>" := by
  decide

/-- Claim C6 (amended): a second application of `remove_think_tags`
changes nothing whenever the first application's output contains no
remaining `<think>` marker; any input containing no `<think>` marker is
returned whitespace-trimmed but otherwise unchanged, and exactly
unchanged when it also carries no surrounding whitespace. -/
theorem claim_C6_theorem (t : String) :
    (findSubstr thinkOpenMark (remove_think_tags t).data = none →
      remove_think_tags (remove_think_tags t) = remove_think_tags t) ∧
    (findSubstr thinkOpenMark t.data = none →
      remove_think_tags t = String.mk (pyStrip t.data)) ∧
    (findSubstr thinkOpenMark t.data = none → pyStrip t.data = t.data →
      remove_think_tags t = t) := by
  refine ⟨?_, ?_, ?_⟩
  · intro h
    rw [remove_think_tags_of_no_open _ h]
    show String.mk (pyStrip (pyStrip (removeThinkAux t.data.length t.data))) =
      remove_think_tags t
    rw [pyStrip_pyStrip]
    rfl
  · intro h
    exact remove_think_tags_of_no_open t h
  · intro h h2
    rw [remove_think_tags_of_no_open t h, h2]

/-- Witness for C6's amended theorem on concrete marker-free text. -/
theorem claim_C6_witness :
    remove_think_tags (remove_think_tags "plain code") =
      remove_think_tags "plain code" ∧
    remove_think_tags "plain code" = "plain code" :=
  ⟨( claim_C6_theorem "plain code").1 (by decide),
   ( claim_C6_theorem "plain code").2.2 (by decide) (by decide)⟩

/-- Claim C7: the rule-based fallback, on the lower-cased description,
picks javascript+express when a javascript/node keyword occurs; else
java+spring when a java keyword occurs; else python+fastapi; and
`use_framework` is true exactly when an API/server keyword occurs and no
simple/script keyword does. -/
theorem claim_C7_theorem (d : String) :
    ((containsSub "javascript".toList (lowerL d) ||
        containsSub "node".toList (lowerL d)) = true →
      (detect_stack_fallback d).1 = "javascript" ∧
      (detect_stack_fallback d).2.1 = "express") ∧
    ((containsSub "javascript".toList (lowerL d) ||
        containsSub "node".toList (lowerL d)) = false →
      containsSub "java".toList (lowerL d) = true →
      (detect_stack_fallback d).1 = "java" ∧
      (detect_stack_fallback d).2.1 = "spring") ∧
    ((containsSub "javascript".toList (lowerL d) ||
        containsSub "node".toList (lowerL d)) = false →
      containsSub "java".toList (lowerL d) = false →
      (detect_stack_fallback d).1 = "python" ∧
      (detect_stack_fallback d).2.1 = "fastapi") ∧
    ((detect_stack_fallback d).2.2 = true ↔
      ((api_indicators.any fun k => containsSub k.toList (lowerL d)) = true ∧
       (simple_indicators.any fun k => containsSub k.toList (lowerL d)) = false)) := by
  refine ⟨?_, ?_, ?_, ?_⟩
  · intro h
    simp only [detect_stack_fallback]
    split
    · exact ⟨rfl, rfl⟩
    · next hcond =>
      rw [h] at hcond
      exact absurd hcond (by decide)
  · intro h hj
    obtain ⟨hjs, _⟩ := Bool.or_eq_false_iff.mp h
    simp only [detect_stack_fallback]
    split
    · next hcond =>
      rw [h] at hcond
      exact absurd hcond (by decide)
    · split
      · exact ⟨rfl, rfl⟩
      · next hcond2 =>
        exfalso
        apply hcond2
        rw [hj, hjs]
        rfl
  · intro h hj
    simp only [detect_stack_fallback]
    split
    · next hcond =>
      rw [h] at hcond
      exact absurd hcond (by decide)
    · split
      · next hcond2 =>
        rw [hj] at hcond2
        simp at hcond2
      · exact ⟨rfl, rfl⟩
  · simp only [detect_stack_fallback, Bool.and_eq_true, Bool.not_eq_true']
    exact ⟨fun ⟨a, b⟩ => ⟨b, a⟩, fun ⟨a, b⟩ => ⟨b, a⟩⟩

/-- Witness for C7 at `"java api"`: java+spring with a framework. -/
theorem claim_C7_witness :
    (detect_stack_fallback "java api").1 = "java" ∧
    (detect_stack_fallback "java api").2.1 = "spring" :=
  ( claim_C7_theorem "java api").2.1 (by decide) (by decide)

/-- Claim C8: the rule-based fallback classifier is a pure function of
the description text — equal inputs give identical decisions
(language, framework, useFramework and frontendFramework), with no
external call in its definition. -/
theorem claim_C8_theorem (d₁ d₂ : String) (h : d₁ = d₂) :
    detect_stack_fallback d₁ = detect_stack_fallback d₂ ∧
    detect_frontend_framework d₁ = detect_frontend_framework d₂ := by
  subst h
  exact ⟨rfl, rfl⟩

/-- Witness for C8 at a concrete repeated invocation. -/
theorem claim_C8_witness :
    detect_stack_fallback "build a react api" =
      detect_stack_fallback "build a react api" ∧
    detect_frontend_framework "build a react api" =
      detect_frontend_framework "build a react api" :=
  claim_C8_theorem "build a react api" "build a react api" rfl

/-- Claim C9: `file_to_text` is total; whenever the dispatched
extraction fails it returns the fixed sentinel, and whenever it
succeeds it returns the extracted text — extraction failure can never
raise out of the function. -/
theorem claim_C9_theorem (path : String) (io : FileOracles) :
    (∀ e, dispatchExtract (splitextExtLower path) io = Except.error e →
      file_to_text path io = "File content could not be extracted") ∧
    (∀ t, dispatchExtract (splitextExtLower path) io = Except.ok t →
      file_to_text path io = t) := by
  constructor <;> intro x h <;> simp [file_to_text, h]

/-- Witness for C9: an image path whose OCR call fails yields the
sentinel string. -/
theorem claim_C9_witness :
    file_to_text "uploads/photo.png" ocrFailOracles =
      "File content could not be extracted" :=
  ( claim_C9_theorem "uploads/photo.png" ocrFailOracles).1 "ocr failed" rfl

/-- Claim C3, evaluated at the failing input: all six kinds requested,
the first three blocks succeed and `backend_code` fails.  The run emits
the error and halts — no artifact event for any later kind, no
`complete` event — and the earlier `ui_code`/`db_schema` artifacts are
persisted; but the `er_diagram` artifact, though completed and committed
before the failure, is NOT on the stored record (models.py declares no
`er_diagram` column; the value survives only as an in-memory attribute),
contradicting the claim's "artifacts completed before the failure are
already persisted". -/
theorem claim_C3_theorem :
    generation_stream envFailBackend none "p" allSixTypes =
      ⟨[Ev.config "python" "fastapi" none true,
        Ev.progress .ui_code .started,
        Ev.artifact .ui_code "UI",
        Ev.progress .ui_code .completed,
        Ev.progress .db_schema .started,
        Ev.artifact .db_schema "SCHEMA",
        Ev.progress .db_schema .completed,
        Ev.progress .er_diagram .started,
        Ev.artifact .er_diagram "ER",
        Ev.progress .er_diagram .completed,
        Ev.progress .backend_code .started,
        Ev.error "Backend code generation failed: boom"],
       some { id := 7
              image_path := none
              prompt := "p"
              description := some "\n\nUser Requirements: p"
              ui_code := some "UI"
              db_schema := some "SCHEMA"
              backend_code := none
              db_queries := none
              tech_docs := none
              backend_language := some "python"
              framework := some "fastapi" },
       some "ER"⟩ ∧
    ((generation_stream envFailBackend none "p" allSixTypes).record.map
      (fun r => storedArtifact r .ui_code)) = some (some "UI") ∧
    ((generation_stream envFailBackend none "p" allSixTypes).record.map
      (fun r => storedArtifact r .db_schema)) = some (some "SCHEMA") ∧
    ((generation_stream envFailBackend none "p" allSixTypes).record.map
      (fun r => storedArtifact r .er_diagram)) = some none ∧
    Ev.complete 7 ∉ (generation_stream envFailBackend none "p" allSixTypes).events ∧
    Ev.artifact .db_queries "QUERIES" ∉
      (generation_stream envFailBackend none "p" allSixTypes).events := by
  exact ⟨rfl, rfl, rfl, rfl, by decide, by decide⟩

/-- Claim C5, evaluated at a fully successful all-six run: the
`er_diagram` artifact event is emitted and the run completes, the five
mapped columns hold their contents, but the `er_diagram` content is not
retrievable from the store (`storedArtifact … = none`): models.py gives
`GenerationRecord` no `er_diagram` column, so the commit after
`record.er_diagram = …` persists nothing for it, contrary to the claim
(and to main.py's own fallback DDL, which does declare the column). -/
theorem claim_C5_theorem :
    Ev.artifact .er_diagram "ER" ∈
      (generation_stream envAllOk none "p" allSixTypes).events ∧
    Ev.complete 7 ∈ (generation_stream envAllOk none "p" allSixTypes).events ∧
    ((generation_stream envAllOk none "p" allSixTypes).record.map
      (fun r => storedArtifact r .ui_code)) = some (some "UI") ∧
    ((generation_stream envAllOk none "p" allSixTypes).record.map
      (fun r => storedArtifact r .db_schema)) = some (some "SCHEMA") ∧
    ((generation_stream envAllOk none "p" allSixTypes).record.map
      (fun r => storedArtifact r .backend_code)) = some (some "CODE") ∧
    ((generation_stream envAllOk none "p" allSixTypes).record.map
      (fun r => storedArtifact r .db_queries)) = some (some "QUERIES") ∧
    ((generation_stream envAllOk none "p" allSixTypes).record.map
      (fun r => storedArtifact r .tech_docs)) = some (some "DOCS") ∧
    ((generation_stream envAllOk none "p" allSixTypes).record.map
      (fun r => storedArtifact r .er_diagram)) = some none ∧
    (generation_stream envAllOk none "p" allSixTypes).erAttr = some "ER" := by
  exact ⟨by decide, by decide, rfl, rfl, rfl, rfl, rfl, rfl, rfl⟩

end CodeGen
